import Mathlib

/-!
Shallow embedding of `src/server.py` (handwriting-synthesis HTTP front end).

The embedding models the request-handling pipeline of `HandwritingHandler`:
method dispatch (`do_GET`, `do_POST`, `do_OPTIONS`), the generate handler
(`handle_generate_request`), the JSON error responses (`send_error_response`),
and the one-time engine initialization in `HandwritingHandler.__init__`.

External collaborators (Python runtime and standard library, the `Hand`
engine) appear as oracles or as small faithful models:
  * the result of `json.loads(post_data.decode("utf-8"))` is an oracle input,
  * the engine call `Hand.write` and the subsequent file read are oracles
    (either succeed or raise, with the exception message),
  * `BaseHTTPRequestHandler.send_error` and the framework's dispatch of
    unknown methods are modelled after the documented stdlib behaviour.
-/

namespace HandwritingServer

/-- Values produced by `json.loads`: the Python data the handler inspects. -/
inductive Json where
  | null
  | bool (b : Bool)
  | num (q : Rat)
  | str (s : String)
  | arr (elems : List Json)
  | obj (members : List (String × Json))

/-- Dictionary lookup for a JSON object modelled as an association list;
`json.loads` keeps the last binding of a duplicated key, hence the fold. -/
def lookupLast (kvs : List (String × Json)) (k : String) : Option Json :=
  kvs.foldl (fun acc kv => if kv.1 = k then some kv.2 else acc) none

/-- Python truthiness (`bool(x)`) on JSON-derived values. -/
def Json.truthy : Json → Bool
  | .null => false
  | .bool b => b
  | .num q => !(q = 0)
  | .str s => !(s = "")
  | .arr xs => !xs.isEmpty
  | .obj kvs => !kvs.isEmpty

/-- Python `len(x)` on JSON-derived values: only strings, lists and dicts
support length inspection; other values raise `TypeError` (`none`). -/
def Json.pyLen : Json → Option Nat
  | .str s => some s.length
  | .arr xs => some xs.length
  | .obj kvs => some kvs.length
  | _ => none

/-- Message of the `TypeError` raised by `len` on a value with no length.
The exact Python text depends on the runtime type name; no claim inspects it. -/
def lenErrorMessage : String := "object has no len()"

/-- Python `len(x)` as a computation that can raise. -/
def Json.pyLenE (j : Json) : Except String Nat :=
  match j.pyLen with
  | some n => .ok n
  | none => .error lenErrorMessage

/-- Python membership `k in x` for a string key `k`: key lookup on dicts,
element equality on lists, substring test on strings, `TypeError` otherwise. -/
def Json.pyContains (j : Json) (k : String) : Except String Bool :=
  match j with
  | .obj kvs => .ok (lookupLast kvs k).isSome
  | .arr xs => .ok (xs.any fun x => match x with | .str s => s = k | _ => false)
  | .str s => .ok (decide (2 ≤ (s.splitOn k).length))
  | _ => .error "argument is not iterable"

/-- Python subscript `x[k]` for a string key `k`: dict access (the keys the
handler reads were checked for presence, but other shapes raise). -/
def Json.pySubscript (j : Json) (k : String) : Except String Json :=
  match j with
  | .obj kvs =>
    match lookupLast kvs k with
    | some v => .ok v
    | none => .error "KeyError"
  | .str _ => .error "string indices must be integers"
  | .arr _ => .error "list indices must be integers"
  | _ => .error "object is not subscriptable"

/-- Python iteration `for x in j`: lists yield elements, strings yield
one-character strings, dicts yield their keys, other values raise. -/
def Json.pyIter : Json → Except String (List Json)
  | .arr xs => .ok xs
  | .str s => .ok (s.toList.map fun c => .str (String.mk [c]))
  | .obj kvs => .ok (kvs.map fun kv => .str kv.1)
  | _ => .error "object is not iterable"

/-- Body of an HTTP response, kept structured (the handler serializes JSON
with `json.dumps` and writes SVG text verbatim). -/
inductive ResponseBody where
  | empty
  | jsonBody (j : Json)
  | svg (content : String)
  | statusPage (modelLoaded : Bool)
  | errorPage (code : Nat) (message : String)

/-- An HTTP response: status, the explicitly sent headers in order, body. -/
structure HttpResponse where
  status : Nat
  headers : List (String × String)
  body : ResponseBody

/-- Counterpart of `send_error_response` (server.py lines 212-220): JSON body
`{"error": message}` with CORS header. -/
def send_error_response (code : Nat) (message : String) : HttpResponse :=
  { status := code
    headers := [("Content-Type", "application/json"), ("Access-Control-Allow-Origin", "*")]
    body := .jsonBody (.obj [("error", .str message)]) }

/-- Catch-all error response (server.py line 210). -/
def internalServerError (message : String) : HttpResponse :=
  send_error_response 500 ("Internal server error: " ++ message)

/-- Models `http.server.BaseHTTPRequestHandler.send_error`: the framework
sends a plain HTML error page with `Content-Type` and `Connection` headers
only; the handler does not override it, so no CORS header is added here. -/
def send_error (code : Nat) (message : String) : HttpResponse :=
  { status := code
    headers := [("Content-Type", "text/html;charset=utf-8"), ("Connection", "close")]
    body := .errorPage code message }

/-- Outcome of `json.loads(post_data.decode("utf-8"))` when it raises:
`json.JSONDecodeError` is caught by the handler (line 140); a
`UnicodeDecodeError` from `.decode` is not and reaches the catch-all. -/
inductive DecodeErr where
  | jsonDecodeError
  | unicodeDecodeError (message : String)

/-- Per-request oracle: engine state and the outcomes of the external calls
the handler makes, in the order it makes them. -/
structure RequestOracle where
  /-- Whether `HandwritingHandler._hand_model` is truthy (a loaded `Hand`). -/
  modelLoaded : Bool
  /-- Result of `int(self.headers["Content-Length"])`; `.error` is the raised
  exception (missing header gives `int(None)`, garbage gives `ValueError`). -/
  contentLength : Except String Nat
  /-- Result of decoding and parsing the request body. -/
  decodeBody : Except DecodeErr Json
  /-- Name chosen by `tempfile.NamedTemporaryFile` for this request. -/
  tempPath : String
  /-- Behaviour of `Hand.write`: `.ok svg` writes `svg` to the temp file,
  `.error` raises with that message. -/
  render : Except String String
  /-- Exception raised while reading the temp file back, if any. -/
  readExc : Option String

/-- Arguments of the one engine invocation `self._hand_model.write(...)`. -/
structure EngineCall where
  filename : String
  lines : Json
  biases : Json
  styles : Json
  stroke_colors : Json
  stroke_widths : Json

/-- Observable trace of one `handle_generate_request` call: the response,
the engine invocation (if any) with its arguments, and the temp-file facts. -/
structure GenerateTrace where
  response : HttpResponse
  engineCalled : Option EngineCall
  tempCreated : Bool
  tempDeleted : Bool

/-- Required fields, in the order the source checks them (line 145). -/
def required_fields : List String :=
  ["lines", "biases", "styles", "stroke_colors", "stroke_widths", "filename"]

/-- The `for field in required_fields` presence loop (lines 146-149):
first absent field, or an exception from the membership test itself. -/
def firstMissing (data : Json) : List String → Except String (Option String)
  | [] => .ok none
  | f :: fs =>
    match data.pyContains f with
    | .error m => .error m
    | .ok true => firstMissing data fs
    | .ok false => .ok (some f)

/-- Result of the validation section (lines 144-171): a 400 message, or the
five arrays bound for the engine call (the bound `filename` is never used
afterwards, so it is not carried). -/
inductive Checked where
  | invalid (message : String)
  | valid (lines biases styles stroke_colors stroke_widths : Json)

/-- Generator check `all(len(line) <= 75 for line in lines)` (line 163):
elements are examined left to right, `len` may raise, the first over-long
element makes the `all` false. -/
def allLenLe (bound : Nat) : List Json → Except String Bool
  | [] => .ok true
  | x :: xs =>
    match x.pyLenE with
    | .error m => .error m
    | .ok n => if n ≤ bound then allLenLe bound xs else .ok false

/-- Generator check `all(len(arr) == expected_length for arr in [...])`
(line 169), same evaluation order as in the source. -/
def allLenEq (expected : Nat) : List Json → Except String Bool
  | [] => .ok true
  | x :: xs =>
    match x.pyLenE with
    | .error m => .error m
    | .ok n => if n = expected then allLenEq expected xs else .ok false

/-- Validation pipeline of `handle_generate_request` (lines 144-171),
after a successful JSON decode: presence of the six required fields in
order, then the five subscript reads in source order, then the non-empty,
length-limit and array-length checks. An `.error` is a Python exception
that escapes to the catch-all handler. -/
def validate (data : Json) : Except String Checked :=
  match firstMissing data required_fields with
  | .error m => .error m
  | .ok (some f) => .ok (.invalid ("Missing required field: " ++ f))
  | .ok none =>
    match data.pySubscript "lines" with
    | .error m => .error m
    | .ok lines =>
      match data.pySubscript "biases" with
      | .error m => .error m
      | .ok biases =>
        match data.pySubscript "styles" with
        | .error m => .error m
        | .ok styles =>
          match data.pySubscript "stroke_colors" with
          | .error m => .error m
          | .ok stroke_colors =>
            match data.pySubscript "stroke_widths" with
            | .error m => .error m
            | .ok stroke_widths =>
              match data.pySubscript "filename" with
              | .error m => .error m
              | .ok _filename =>
                if lines.truthy = false then
                  .ok (.invalid "Lines cannot be empty")
                else
                  match lines.pyLenE with
                  | .error m => .error m
                  | .ok n =>
                    if n = 0 then .ok (.invalid "Lines cannot be empty")
                    else
                      match lines.pyIter with
                      | .error m => .error m
                      | .ok elems =>
                        match allLenLe 75 elems with
                        | .error m => .error m
                        | .ok false => .ok (.invalid "Each line must be 75 characters or less")
                        | .ok true =>
                          match allLenEq n [biases, styles, stroke_colors, stroke_widths] with
                          | .error m => .error m
                          | .ok false => .ok (.invalid "All arrays must have the same length as lines")
                          | .ok true => .ok (.valid lines biases styles stroke_colors stroke_widths)

/-- Trace for an exit before the temporary file is created. -/
def earlyExit (r : HttpResponse) : GenerateTrace :=
  { response := r, engineCalled := none, tempCreated := false, tempDeleted := false }

/-- The generate handler (server.py lines 126-210). The engine-availability
check comes first; `int(Content-Length)` and a `UnicodeDecodeError` raise
into the catch-all; a `json.JSONDecodeError` and the validation failures
produce 400 responses; then a temp file is created, the engine is invoked
with the temp path and the five arrays, the file is read back, and the
`finally` block deletes the temp file on every path through the `try`. -/
def handle_generate_request (o : RequestOracle) : GenerateTrace :=
  if o.modelLoaded = false then
    earlyExit (send_error_response 500 "Handwriting model not loaded")
  else
    match o.contentLength with
    | .error m => earlyExit (internalServerError m)
    | .ok _ =>
      match o.decodeBody with
      | .error .jsonDecodeError => earlyExit (send_error_response 400 "Invalid JSON data")
      | .error (.unicodeDecodeError m) => earlyExit (internalServerError m)
      | .ok data =>
        match validate data with
        | .error m => earlyExit (internalServerError m)
        | .ok (.invalid msg) => earlyExit (send_error_response 400 msg)
        | .ok (.valid lines biases styles stroke_colors stroke_widths) =>
          let call : EngineCall :=
            { filename := o.tempPath, lines := lines, biases := biases, styles := styles
              stroke_colors := stroke_colors, stroke_widths := stroke_widths }
          match o.render with
          | .error m =>
            { response := internalServerError m, engineCalled := some call
              tempCreated := true, tempDeleted := true }
          | .ok svgContent =>
            match o.readExc with
            | some m =>
              { response := internalServerError m, engineCalled := some call
                tempCreated := true, tempDeleted := true }
            | none =>
              { response :=
                  { status := 200
                    headers := [("Content-Type", "image/svg+xml"),
                                ("Access-Control-Allow-Origin", "*")]
                    body := .svg svgContent }
                engineCalled := some call, tempCreated := true, tempDeleted := true }

/-- HTTP method of an incoming request; `other` covers methods for which the
handler class defines no `do_<METHOD>` member. -/
inductive Method where
  | GET
  | POST
  | OPTIONS
  | other (verb : String)

/-- Path component extracted by `urlparse(self.path)`: everything before the
first query or fragment delimiter. -/
def urlparsePath (p : String) : String :=
  String.mk (p.toList.takeWhile fun c => !(c = '?') && !(c = '#'))

/-- Counterpart of `do_OPTIONS` (lines 43-49): a 200 preflight answer. -/
def do_OPTIONS : HttpResponse :=
  { status := 200
    headers := [("Access-Control-Allow-Origin", "*"),
                ("Access-Control-Allow-Methods", "GET, POST, OPTIONS"),
                ("Access-Control-Allow-Headers", "Content-Type")]
    body := .empty }

/-- Counterpart of `do_GET` (lines 51-117): status page, health check, or a
framework 404 for any other path. -/
def do_GET (modelLoaded : Bool) (path : String) : HttpResponse :=
  let p := urlparsePath path
  if p = "/" then
    { status := 200
      headers := [("Content-Type", "text/html"), ("Access-Control-Allow-Origin", "*")]
      body := .statusPage modelLoaded }
  else if p = "/health" then
    { status := 200
      headers := [("Content-Type", "application/json"), ("Access-Control-Allow-Origin", "*")]
      body := .jsonBody (.obj [("status", .str "healthy"), ("model_loaded", .bool modelLoaded)]) }
  else
    send_error 404 "Not Found"

/-- Counterpart of `do_POST` (lines 119-124): the raw path is compared, and
anything but `/generate` gets a framework 404. -/
def do_POST (o : RequestOracle) (path : String) : HttpResponse :=
  if path = "/generate" then (handle_generate_request o).response
  else send_error 404 "Not Found"

/-- Method dispatch, modelled after `BaseHTTPRequestHandler.handle_one_request`:
the framework calls `do_<METHOD>` when the class defines it and otherwise
answers 501 Unsupported method; the class defines GET, POST and OPTIONS. -/
def handleRequest (o : RequestOracle) (m : Method) (path : String) : HttpResponse :=
  match m with
  | .GET => do_GET o.modelLoaded path
  | .POST => do_POST o path
  | .OPTIONS => do_OPTIONS
  | .other verb => send_error 501 ("Unsupported method (" ++ verb ++ ")")

/-- Whether a response carries the permissive CORS header. -/
def hasCORS (r : HttpResponse) : Bool :=
  r.headers.contains ("Access-Control-Allow-Origin", "*")

/-- One-time engine initialization of `HandwritingHandler.__init__`
(lines 30-41): when the class attribute is unset the construction oracle is
consulted, a failure being memoized as the `None` sentinel; once the
attribute is set nothing happens. The returned flag records whether a
construction attempt was made. The state is `none` while the attribute is
unset, `some none` for the failed sentinel, `some (some e)` for a loaded
engine of abstract type `E`. -/
def engineInitStep (E : Type) (st : Option (Option E)) (construct : Except String E) :
    Option (Option E) × Bool :=
  match st with
  | some h => (some h, false)
  | none =>
    match construct with
    | .ok e => (some (some e), true)
    | .error _ => (some none, true)

/-- Run the initialization step once per incoming request, threading the
class attribute; returns, per request, the state it observes afterwards and
whether that request attempted construction. -/
def runInit (E : Type) : Option (Option E) → List (Except String E) →
    List (Option (Option E) × Bool)
  | _, [] => []
  | st, c :: cs =>
    let p := engineInitStep E st c
    p :: runInit E p.1 cs

/-- Whether the generate handler sees a loaded model under a given
initialization state (`if not self._hand_model`). -/
def modelLoadedOf (E : Type) : Option (Option E) → Bool
  | some (some _) => true
  | _ => false

/-- Whether every element of a list is a JSON string (wire shape of `lines`). -/
def isStrList : List Json → Bool
  | [] => true
  | .str _ :: xs => isStrList xs
  | _ :: _ => false

/-- Whether a line (a JSON string) is within the 75-character limit. -/
def strLenLe75 : Json → Bool
  | .str s => decide (s.length ≤ 75)
  | _ => true

/-- Whether a key is absent or bound to a JSON array (wire shape of the four
parameter arrays). -/
def wireShapeArr (kvs : List (String × Json)) (k : String) : Bool :=
  match lookupLast kvs k with
  | none => true
  | some (.arr _) => true
  | some _ => false

/-- Whether the `lines` key is absent or bound to an array of strings. -/
def wireShapeLines (kvs : List (String × Json)) : Bool :=
  match lookupLast kvs "lines" with
  | none => true
  | some (.arr ls) => isStrList ls
  | some _ => false

/-- Whether a decoded mapping matches the wire shape of a RenderRequest on
the fields the validator inspects: `lines` absent or an array of strings,
the four parameter arrays absent or arrays (`filename` is unconstrained,
only its presence is ever tested). -/
def wireTyped (kvs : List (String × Json)) : Bool :=
  wireShapeLines kvs
  && wireShapeArr kvs "biases" && wireShapeArr kvs "styles"
  && wireShapeArr kvs "stroke_colors" && wireShapeArr kvs "stroke_widths"

/-- Spec-side: whether the named array has exactly the expected length. -/
def specArrLenIs (kvs : List (String × Json)) (k : String) (n : Nat) : Bool :=
  match lookupLast kvs k with
  | some (.arr xs) => decide (xs.length = n)
  | _ => true

/-- Spec-side description of the validator, following the words of the spec
(section 4.2) and of claim C2, for the refinement comparison: the checks run
in the fixed order — presence of the six required keys, tested in the order
lines, biases, styles, stroke_colors, stroke_widths, filename; then lines
non-empty; then every line at most 75 characters; then the other four arrays
each of length equal to the length of lines — and the result is the message
of the first check that fails, or nothing when all pass. -/
def specFirstFailure (kvs : List (String × Json)) : Option String :=
  match required_fields.find? (fun f => (lookupLast kvs f).isNone) with
  | some f => some ("Missing required field: " ++ f)
  | none =>
    match lookupLast kvs "lines" with
    | some (.arr ls) =>
      if ls.length = 0 then some "Lines cannot be empty"
      else if !ls.all strLenLe75 then some "Each line must be 75 characters or less"
      else if !(specArrLenIs kvs "biases" ls.length && specArrLenIs kvs "styles" ls.length
                && specArrLenIs kvs "stroke_colors" ls.length
                && specArrLenIs kvs "stroke_widths" ls.length) then
        some "All arrays must have the same length as lines"
      else none
    | _ => none

/-- The presence loop over an object never raises and finds exactly the first
key whose dictionary lookup fails. -/
theorem firstMissing_obj (kvs : List (String × Json)) :
    ∀ fields : List String,
      firstMissing (.obj kvs) fields = .ok (fields.find? fun f => (lookupLast kvs f).isNone)
  | [] => rfl
  | f :: fs => by
    simp only [firstMissing, Json.pyContains, List.find?]
    cases h : lookupLast kvs f with
    | none => simp [h]
    | some v => simp [h, firstMissing_obj kvs fs]

/-- On a list of JSON strings the per-line length check never raises and
computes the conjunction of the 75-character tests. -/
theorem allLenLe_strs : ∀ ls : List Json, isStrList ls = true →
    allLenLe 75 ls = .ok (ls.all strLenLe75)
  | [], _ => rfl
  | .str s :: xs, h => by
    simp only [isStrList] at h
    simp only [allLenLe, Json.pyLenE, Json.pyLen, List.all_cons, strLenLe75]
    by_cases hs : s.length ≤ 75
    · simp [hs, allLenLe_strs xs h]
    · simp [hs]

/-- On a list of JSON arrays the length-match check never raises and computes
the conjunction of the length comparisons. -/
theorem allLenEq_arrs (n : Nat) : ∀ ars : List (List Json),
    allLenEq n (ars.map Json.arr) = .ok (ars.all fun xs => decide (xs.length = n))
  | [] => rfl
  | xs :: rest => by
    simp only [List.map_cons, allLenEq, Json.pyLenE, Json.pyLen, List.all_cons]
    by_cases hx : xs.length = n
    · simp [hx, allLenEq_arrs n rest]
    · simp [hx]

/-- A present key of wire-array shape is bound to an array. -/
theorem wireShapeArr_elim {kvs : List (String × Json)} {k : String} {v : Json}
    (hk : lookupLast kvs k = some v) (h : wireShapeArr kvs k = true) :
    ∃ xs, v = Json.arr xs := by
  cases v with
  | arr xs => exact ⟨xs, rfl⟩
  | null => simp [wireShapeArr, hk] at h
  | bool b => simp [wireShapeArr, hk] at h
  | num q => simp [wireShapeArr, hk] at h
  | str s => simp [wireShapeArr, hk] at h
  | obj ms => simp [wireShapeArr, hk] at h

/-- A present `lines` key of wire shape is bound to an array of strings. -/
theorem wireShapeLines_elim {kvs : List (String × Json)} {v : Json}
    (hk : lookupLast kvs "lines" = some v) (h : wireShapeLines kvs = true) :
    ∃ ls, v = Json.arr ls ∧ isStrList ls = true := by
  cases v with
  | arr xs => exact ⟨xs, rfl, by simpa [wireShapeLines, hk] using h⟩
  | null => simp [wireShapeLines, hk] at h
  | bool b => simp [wireShapeLines, hk] at h
  | num q => simp [wireShapeLines, hk] at h
  | str s => simp [wireShapeLines, hk] at h
  | obj ms => simp [wireShapeLines, hk] at h

/-- Validation succeeds on every mapping that has the six keys, a non-empty
`lines` array of strings within the length limit, and four arrays of the
matching length; the five arrays are returned for the engine call. -/
theorem validate_valid (kvs : List (String × Json)) (ls bs ss cs ws : List Json) (fv : Json)
    (hlk : lookupLast kvs "lines" = some (.arr ls))
    (hbk : lookupLast kvs "biases" = some (.arr bs))
    (hsk : lookupLast kvs "styles" = some (.arr ss))
    (hck : lookupLast kvs "stroke_colors" = some (.arr cs))
    (hwk : lookupLast kvs "stroke_widths" = some (.arr ws))
    (hfk : lookupLast kvs "filename" = some fv)
    (hstr : isStrList ls = true)
    (hne : ls ≠ [])
    (h75 : ls.all strLenLe75 = true)
    (hlb : bs.length = ls.length) (hlss : ss.length = ls.length)
    (hlc : cs.length = ls.length) (hlw : ws.length = ls.length) :
    validate (.obj kvs) = .ok (.valid (.arr ls) (.arr bs) (.arr ss) (.arr cs) (.arr ws)) := by
  have hie : ls.isEmpty = false := by
    cases ls with
    | nil => exact absurd rfl hne
    | cons a as => rfl
  have hn0 : ¬ ls.length = 0 := by simpa [List.length_eq_zero] using hne
  have hEq : allLenEq ls.length [Json.arr bs, Json.arr ss, Json.arr cs, Json.arr ws]
      = .ok true := by
    have h := allLenEq_arrs ls.length [bs, ss, cs, ws]
    simp only [List.map_cons, List.map_nil] at h
    rw [h]
    simp [hlb, hlss, hlc, hlw]
  simp [validate, firstMissing_obj, required_fields, hlk, hbk, hsk, hck, hwk, hfk,
    Json.pySubscript, Json.truthy, hie, Json.pyLenE, Json.pyLen, hn0, Json.pyIter,
    allLenLe_strs _ hstr, h75, hEq]

/-- Validation of a wire-shaped mapping rejects with exactly the message of
the first failing check, as listed by `specFirstFailure`. -/
theorem validate_invalid (kvs : List (String × Json)) (msg : String)
    (hw : wireTyped kvs = true)
    (hs : specFirstFailure kvs = some msg) :
    validate (.obj kvs) = .ok (.invalid msg) := by
  have hw4 := hw
  simp only [wireTyped, Bool.and_eq_true] at hw4
  obtain ⟨⟨⟨⟨hwl, hwb⟩, hws⟩, hwc⟩, hww⟩ := hw4
  cases hfind : required_fields.find? (fun f => (lookupLast kvs f).isNone) with
  | some f =>
    simp only [specFirstFailure, hfind] at hs
    simp [validate, firstMissing_obj, hfind, ← Option.some_inj.mp hs]
  | none =>
    have hmem : ∀ f ∈ required_fields, ¬ ((lookupLast kvs f).isNone = true) := by
      intro f hf
      have := List.find?_eq_none.mp hfind f hf
      simpa using this
    have hpresent : ∀ f ∈ required_fields, ∃ v, lookupLast kvs f = some v := by
      intro f hf
      cases hx : lookupLast kvs f with
      | none => exact absurd (by simp [hx]) (hmem f hf)
      | some v => exact ⟨v, rfl⟩
    obtain ⟨lv, hlk⟩ := hpresent "lines" (by simp [required_fields])
    obtain ⟨bv, hbk⟩ := hpresent "biases" (by simp [required_fields])
    obtain ⟨sv, hsk⟩ := hpresent "styles" (by simp [required_fields])
    obtain ⟨cv, hck⟩ := hpresent "stroke_colors" (by simp [required_fields])
    obtain ⟨wv, hwk⟩ := hpresent "stroke_widths" (by simp [required_fields])
    obtain ⟨fv, hfk⟩ := hpresent "filename" (by simp [required_fields])
    obtain ⟨ls, rfl, hstr⟩ := wireShapeLines_elim hlk hwl
    obtain ⟨bs, rfl⟩ := wireShapeArr_elim hbk hwb
    obtain ⟨ss, rfl⟩ := wireShapeArr_elim hsk hws
    obtain ⟨cs, rfl⟩ := wireShapeArr_elim hck hwc
    obtain ⟨ws, rfl⟩ := wireShapeArr_elim hwk hww
    have hEq := allLenEq_arrs ls.length [bs, ss, cs, ws]
    simp only [List.map_cons, List.map_nil, List.all_cons, List.all_nil,
      Bool.and_true, Bool.and_assoc] at hEq
    simp only [specFirstFailure, hfind, hlk] at hs
    by_cases hnil : ls = []
    · subst hnil
      simp only [List.length_nil, if_pos] at hs
      simp only [Option.some_inj] at hs
      subst hs
      simp [validate, firstMissing_obj, hfind, Json.pySubscript, hlk, hbk, hsk, hck, hwk,
        hfk, Json.truthy]
    · have hn0 : ¬ ls.length = 0 := by simpa [List.length_eq_zero] using hnil
      have hie : ls.isEmpty = false := by
        cases ls with
        | nil => exact absurd rfl hnil
        | cons a as => rfl
      rw [if_neg hn0] at hs
      cases hv75 : ls.all strLenLe75 with
      | false =>
        rw [if_pos (show (!ls.all strLenLe75) = true by simp [hv75])] at hs
        simp only [Option.some_inj] at hs
        subst hs
        simp [validate, firstMissing_obj, hfind, Json.pySubscript, hlk, hbk, hsk, hck,
          hwk, hfk, Json.truthy, hie, Json.pyLenE, Json.pyLen, hn0, Json.pyIter,
          allLenLe_strs _ hstr, hv75]
      | true =>
        rw [if_neg (show ¬ (!ls.all strLenLe75) = true by simp [hv75])] at hs
        have hb2 : specArrLenIs kvs "biases" ls.length = decide (bs.length = ls.length) := by
          simp [specArrLenIs, hbk]
        have hs2 : specArrLenIs kvs "styles" ls.length = decide (ss.length = ls.length) := by
          simp [specArrLenIs, hsk]
        have hc2 : specArrLenIs kvs "stroke_colors" ls.length
            = decide (cs.length = ls.length) := by
          simp [specArrLenIs, hck]
        have hw2 : specArrLenIs kvs "stroke_widths" ls.length
            = decide (ws.length = ls.length) := by
          simp [specArrLenIs, hwk]
        rw [hb2, hs2, hc2, hw2] at hs
        simp only [Bool.and_assoc] at hs
        cases hB : (decide (bs.length = ls.length) && (decide (ss.length = ls.length)
            && (decide (cs.length = ls.length) && decide (ws.length = ls.length)))) with
        | true =>
          rw [if_neg (by simp [hB])] at hs
          exact absurd hs (by simp)
        | false =>
          rw [if_pos (by simp [hB])] at hs
          simp only [Option.some_inj] at hs
          subst hs
          rw [hB] at hEq
          simp [validate, firstMissing_obj, hfind, Json.pySubscript, hlk, hbk, hsk, hck,
            hwk, hfk, Json.truthy, hie, Json.pyLenE, Json.pyLen, hn0, Json.pyIter,
            allLenLe_strs _ hstr, hv75, hEq]

/-- The scenario payload of the spec: one line "Hi" with matching
single-element parameter arrays. -/
def scenarioPayload : List (String × Json) :=
  [("lines", .arr [.str "Hi"]),
   ("biases", .arr [.num (1/2)]),
   ("styles", .arr [.num 3]),
   ("stroke_colors", .arr [.str "#000"]),
   ("stroke_widths", .arr [.num 1]),
   ("filename", .str "a.svg")]

/-- Oracle for the scenario request: loaded engine, readable body, stub
engine writing a fixed SVG document, clean read. -/
def scenarioOracle : RequestOracle :=
  { modelLoaded := true
    contentLength := .ok 120
    decodeBody := .ok (.obj scenarioPayload)
    tempPath := "/tmp/tmpw0s14q.svg"
    render := .ok "<svg/>"
    readExc := none }

/-- C1: every JSON mapping with the six required keys, a non-empty `lines`
array of strings of at most 75 characters, and the four parameter arrays of
matching length passes validation; the engine is invoked with the temp path
and exactly those five arrays, and when it writes an SVG document the
response is 200 `image/svg+xml` whose body is exactly what the engine
wrote. -/
theorem generate_valid_request_renders_svg
    (o : RequestOracle) (kvs : List (String × Json)) (ls bs ss cs ws : List Json)
    (fv : Json) (n : Nat) (svgContent : String)
    (hm : o.modelLoaded = true)
    (hcl : o.contentLength = .ok n)
    (hd : o.decodeBody = .ok (.obj kvs))
    (hrender : o.render = .ok svgContent)
    (hread : o.readExc = none)
    (hlk : lookupLast kvs "lines" = some (.arr ls))
    (hbk : lookupLast kvs "biases" = some (.arr bs))
    (hsk : lookupLast kvs "styles" = some (.arr ss))
    (hck : lookupLast kvs "stroke_colors" = some (.arr cs))
    (hwk : lookupLast kvs "stroke_widths" = some (.arr ws))
    (hfk : lookupLast kvs "filename" = some fv)
    (hstr : isStrList ls = true) (hne : ls ≠ []) (h75 : ls.all strLenLe75 = true)
    (hlb : bs.length = ls.length) (hlss : ss.length = ls.length)
    (hlc : cs.length = ls.length) (hlw : ws.length = ls.length) :
    handle_generate_request o =
      { response :=
          { status := 200
            headers := [("Content-Type", "image/svg+xml"),
                        ("Access-Control-Allow-Origin", "*")]
            body := .svg svgContent }
        engineCalled := some
          { filename := o.tempPath, lines := .arr ls, biases := .arr bs, styles := .arr ss
            stroke_colors := .arr cs, stroke_widths := .arr ws }
        tempCreated := true
        tempDeleted := true } := by
  have hv := validate_valid kvs ls bs ss cs ws fv hlk hbk hsk hck hwk hfk hstr hne h75
    hlb hlss hlc hlw
  simp [handle_generate_request, hm, hcl, hd, hv, hrender, hread]

/-- Witness for C1: the spec scenario request with a stub engine writing
an empty SVG element yields 200 with that exact body. -/
theorem generate_valid_request_renders_svg_witness :
    handle_generate_request scenarioOracle =
      { response :=
          { status := 200
            headers := [("Content-Type", "image/svg+xml"),
                        ("Access-Control-Allow-Origin", "*")]
            body := .svg "<svg/>" }
        engineCalled := some
          { filename := scenarioOracle.tempPath
            lines := .arr [.str "Hi"], biases := .arr [.num (1/2)], styles := .arr [.num 3]
            stroke_colors := .arr [.str "#000"], stroke_widths := .arr [.num 1] }
        tempCreated := true
        tempDeleted := true } :=
  generate_valid_request_renders_svg scenarioOracle scenarioPayload
    [.str "Hi"] [.num (1/2)] [.num 3] [.str "#000"] [.num 1] (.str "a.svg") 120 "<svg/>"
    rfl rfl rfl rfl rfl rfl rfl rfl rfl rfl rfl rfl (by simp) rfl rfl rfl rfl rfl

/-- C2: on a wire-shaped mapping the validation checks run in the source's
fixed order and the response is 400 with the message of the first failing
check, as listed by `specFirstFailure`. -/
theorem generate_validation_first_failure_message
    (o : RequestOracle) (kvs : List (String × Json)) (n : Nat) (msg : String)
    (hw : wireTyped kvs = true)
    (hm : o.modelLoaded = true)
    (hcl : o.contentLength = .ok n)
    (hd : o.decodeBody = .ok (.obj kvs))
    (hs : specFirstFailure kvs = some msg) :
    (handle_generate_request o).response = send_error_response 400 msg := by
  have hv := validate_invalid kvs msg hw hs
  simp [handle_generate_request, hm, hcl, hd, hv, earlyExit]

/-- Payload of the second spec scenario: `lines` and a mismatched `biases`
only, so the first missing key in check order is `styles`. -/
def mismatchPayload : List (String × Json) :=
  [("lines", .arr [.str "Hi"]), ("biases", .arr [.num (1/2), .num (3/5)])]

/-- Oracle delivering the mismatched scenario payload to a loaded engine. -/
def mismatchOracle : RequestOracle :=
  { modelLoaded := true
    contentLength := .ok 42
    decodeBody := .ok (.obj mismatchPayload)
    tempPath := "/tmp/tmp9k2xw.svg"
    render := .ok "<svg/>"
    readExc := none }

/-- Witness for C2: the payload with `lines` and a two-element `biases`
gets 400 "Missing required field: styles" — the presence check on `styles`
wins over the later array-length mismatch. -/
theorem generate_validation_first_failure_message_witness :
    (handle_generate_request mismatchOracle).response =
      send_error_response 400 "Missing required field: styles" :=
  generate_validation_first_failure_message mismatchOracle mismatchPayload 42
    "Missing required field: styles" rfl rfl rfl rfl rfl

/-- Oracle for a request whose body is not valid JSON while the engine
never loaded. -/
def unloadedBadJsonOracle : RequestOracle :=
  { modelLoaded := false
    contentLength := .ok 3
    decodeBody := .error .jsonDecodeError
    tempPath := "/tmp/tmpz11aa.svg"
    render := .ok "<svg/>"
    readExc := none }

/-- C3 counterexample: with the engine in the failed/unloaded state, a
request whose body is not valid JSON gets 500 "Handwriting model not
loaded", not the claimed 400 "Invalid JSON data" — the engine-availability
check (line 130) runs before JSON parsing (line 139). -/
theorem invalid_json_with_unloaded_engine_returns_500 :
    (handle_generate_request unloadedBadJsonOracle).response =
      send_error_response 500 "Handwriting model not loaded"
    ∧ (handle_generate_request unloadedBadJsonOracle).response.status ≠ 400 :=
  ⟨rfl, by decide⟩

/-- C3 amended: when the engine is loaded and the body was read, a body
whose parse raises `json.JSONDecodeError` gets 400 "Invalid JSON data";
the engine-availability check precedes validation. -/
theorem invalid_json_returns_400_when_engine_loaded
    (o : RequestOracle) (n : Nat)
    (hm : o.modelLoaded = true)
    (hcl : o.contentLength = .ok n)
    (hd : o.decodeBody = .error .jsonDecodeError) :
    (handle_generate_request o).response = send_error_response 400 "Invalid JSON data" := by
  simp [handle_generate_request, hm, hcl, hd, earlyExit]

/-- Oracle for a loaded engine receiving an unparsable body. -/
def loadedBadJsonOracle : RequestOracle :=
  { unloadedBadJsonOracle with modelLoaded := true }

/-- Witness for the amended C3: a loaded engine and an unparsable body
produce the 400 "Invalid JSON data" response. -/
theorem invalid_json_returns_400_when_engine_loaded_witness :
    (handle_generate_request loadedBadJsonOracle).response =
      send_error_response 400 "Invalid JSON data" :=
  invalid_json_returns_400_when_engine_loaded loadedBadJsonOracle 3 rfl rfl rfl

/-- C4: whenever the temporary output file is created, it is deleted before
the request completes, on every exit path — successful render and read,
engine exception, and read exception alike. -/
theorem temp_file_deleted_on_every_exit_path (o : RequestOracle) :
    (handle_generate_request o).tempCreated = true →
    (handle_generate_request o).tempDeleted = true := by
  unfold handle_generate_request
  (repeat' split) <;> simp [earlyExit]

/-- Oracle for a request that passes validation but whose engine call
raises, exercising the exceptional exit path. -/
def renderFailureOracle : RequestOracle :=
  { scenarioOracle with render := .error "render blew up" }

/-- Witness for C4: on a request whose engine invocation raises after the
temp file was created, the temp file is still deleted. -/
theorem temp_file_deleted_on_every_exit_path_witness :
    (handle_generate_request renderFailureOracle).tempCreated = true
    ∧ (handle_generate_request renderFailureOracle).tempDeleted = true :=
  ⟨rfl, temp_file_deleted_on_every_exit_path renderFailureOracle rfl⟩

/-- C6: with the engine in the failed/unloaded state every generate request
gets the same 500 "Handwriting model not loaded" JSON response, the engine
is not invoked, and no temporary file is created. -/
theorem unloaded_engine_rejects_identically (o : RequestOracle)
    (hm : o.modelLoaded = false) :
    (handle_generate_request o).response
        = send_error_response 500 "Handwriting model not loaded"
    ∧ (handle_generate_request o).engineCalled = none
    ∧ (handle_generate_request o).tempCreated = false := by
  simp [handle_generate_request, hm, earlyExit]

/-- Oracle for a well-formed request arriving while the engine is unloaded. -/
def unloadedOkOracle : RequestOracle :=
  { scenarioOracle with modelLoaded := false }

/-- Witness for C6: even a perfectly valid payload is rejected with the
model-not-loaded error when the engine is unloaded, with no engine call and
no temp file. -/
theorem unloaded_engine_rejects_identically_witness :
    (handle_generate_request unloadedOkOracle).response
        = send_error_response 500 "Handwriting model not loaded"
    ∧ (handle_generate_request unloadedOkOracle).engineCalled = none
    ∧ (handle_generate_request unloadedOkOracle).tempCreated = false :=
  unloaded_engine_rejects_identically unloadedOkOracle rfl

/-- Every response of the generate handler itself carries the CORS header:
both the JSON error responses and the 200 SVG response send it. -/
theorem generate_response_hasCORS (o : RequestOracle) :
    hasCORS (handle_generate_request o).response = true := by
  unfold handle_generate_request
  (repeat' split) <;> rfl

/-- C5 counterexample: the 404 for an unmatched GET path goes through the
framework's `send_error`, which does not add the CORS header, so not every
response carries `Access-Control-Allow-Origin: *`. -/
theorem not_found_response_lacks_cors :
    (handleRequest scenarioOracle .GET "/nope").status = 404
    ∧ hasCORS (handleRequest scenarioOracle .GET "/nope") = false :=
  ⟨rfl, rfl⟩

/-- C5 amended: every response carries `Access-Control-Allow-Origin: *`
except those produced by the framework's `send_error` — the plain 404 and
501 error pages — which carry no CORS header at all. -/
theorem cors_on_all_but_framework_errors :
    (∀ (o : RequestOracle) (m : Method) (p : String),
      hasCORS (handleRequest o m p) = true
      ∨ ∃ c msg, handleRequest o m p = send_error c msg)
    ∧ ∀ c msg, hasCORS (send_error c msg) = false := by
  constructor
  · intro o m p
    cases m with
    | GET =>
      simp only [handleRequest, do_GET]
      split
      · exact Or.inl rfl
      · split
        · exact Or.inl rfl
        · exact Or.inr ⟨404, "Not Found", rfl⟩
    | POST =>
      simp only [handleRequest, do_POST]
      split
      · exact Or.inl (generate_response_hasCORS o)
      · exact Or.inr ⟨404, "Not Found", rfl⟩
    | OPTIONS => exact Or.inl rfl
    | other verb => exact Or.inr ⟨501, "Unsupported method (" ++ verb ++ ")", rfl⟩
  · intro c msg
    rfl

/-- Once the engine attribute is set, later requests never touch it. -/
theorem runInit_stable (E : Type) (h : Option E) :
    ∀ cs : List (Except String E), runInit E (some h) cs = cs.map fun _ => (some h, false)
  | [] => rfl
  | c :: cs => by
    simp [runInit, engineInitStep, runInit_stable E h cs]

/-- C7: engine construction is attempted exactly once per process — the
first request triggers it (a failure being memoized as the `None`
sentinel), and every later request observes that same memoized state with
no further construction attempt. -/
theorem engine_constructed_at_most_once (E : Type)
    (c : Except String E) (cs : List (Except String E)) :
    runInit E none (c :: cs) =
      ((engineInitStep E none c).1, true)
        :: cs.map fun _ => ((engineInitStep E none c).1, false) := by
  obtain ⟨h, hh⟩ : ∃ h, engineInitStep E none c = (some h, true) := by
    cases c with
    | ok e => exact ⟨some e, rfl⟩
    | error m => exact ⟨none, rfl⟩
  simp [runInit, hh, runInit_stable]

/-- C8 counterexample: a method with no `do_<METHOD>` member, such as
DELETE, is answered by the framework with 501 Unsupported method, not with
the claimed 404. -/
theorem unknown_method_returns_501 :
    handleRequest scenarioOracle (.other "DELETE") "/generate"
      = send_error 501 "Unsupported method (DELETE)"
    ∧ (handleRequest scenarioOracle (.other "DELETE") "/generate").status ≠ 404 :=
  ⟨rfl, by decide⟩

/-- C8 amended: GET and POST requests whose path matches no handler get a
plain framework 404; methods other than GET, POST and OPTIONS get the
framework's 501 Unsupported method instead. -/
theorem unmatched_route_responses (o : RequestOracle) (p verb : String) :
    (urlparsePath p ≠ "/" → urlparsePath p ≠ "/health" →
      handleRequest o .GET p = send_error 404 "Not Found")
    ∧ (p ≠ "/generate" → handleRequest o .POST p = send_error 404 "Not Found")
    ∧ handleRequest o (.other verb) p
        = send_error 501 ("Unsupported method (" ++ verb ++ ")") := by
  refine ⟨fun h1 h2 => ?_, fun h3 => ?_, rfl⟩
  · simp [handleRequest, do_GET, h1, h2]
  · simp [handleRequest, do_POST, h3]

/-- Witness for the amended C8: GET and POST on an unregistered path both
get the plain framework 404. -/
theorem unmatched_route_responses_witness :
    handleRequest scenarioOracle .GET "/nosuch" = send_error 404 "Not Found"
    ∧ handleRequest scenarioOracle .POST "/nosuch" = send_error 404 "Not Found" :=
  ⟨(unmatched_route_responses scenarioOracle "/nosuch" "X").1 (by decide) (by decide),
   (unmatched_route_responses scenarioOracle "/nosuch" "X").2.1 (by decide)⟩

/-- C9: the value of the `filename` field never influences the handler:
two payloads that agree on every key but carry different string filenames
produce, for the same engine behaviour, the very same trace — same engine
arguments (temp path plus the five arrays) and same response. -/
theorem filename_noninterference (o : RequestOracle)
    (kvs1 kvs2 : List (String × Json)) (s1 s2 : String)
    (hsame : ∀ k, k ≠ "filename" → lookupLast kvs1 k = lookupLast kvs2 k)
    (h1 : lookupLast kvs1 "filename" = some (.str s1))
    (h2 : lookupLast kvs2 "filename" = some (.str s2)) :
    handle_generate_request { o with decodeBody := .ok (.obj kvs1) }
      = handle_generate_request { o with decodeBody := .ok (.obj kvs2) } := by
  have e1 := hsame "lines" (by decide)
  have e2 := hsame "biases" (by decide)
  have e3 := hsame "styles" (by decide)
  have e4 := hsame "stroke_colors" (by decide)
  have e5 := hsame "stroke_widths" (by decide)
  have hval : validate (.obj kvs1) = validate (.obj kvs2) := by
    simp only [validate, firstMissing_obj, required_fields, Json.pySubscript,
      List.find?, e1, e2, e3, e4, e5, h1, h2, Option.isNone_some]
  simp [handle_generate_request, hval]

/-- The scenario payload with its filename replaced. -/
def scenarioPayloadOtherName : List (String × Json) :=
  [("lines", .arr [.str "Hi"]),
   ("biases", .arr [.num (1/2)]),
   ("styles", .arr [.num 3]),
   ("stroke_colors", .arr [.str "#000"]),
   ("stroke_widths", .arr [.num 1]),
   ("filename", .str "b.svg")]

/-- Witness for C9: the scenario payload with filename "a.svg" and the same
payload with filename "b.svg" produce identical traces. -/
theorem filename_noninterference_witness :
    handle_generate_request
        { scenarioOracle with decodeBody := .ok (.obj scenarioPayload) }
      = handle_generate_request
        { scenarioOracle with decodeBody := .ok (.obj scenarioPayloadOtherName) } :=
  filename_noninterference scenarioOracle scenarioPayload scenarioPayloadOtherName
    "a.svg" "b.svg"
    (by
      intro k hk
      have hf : ("filename" = k) = False := eq_false fun h => hk h.symm
      simp only [scenarioPayload, scenarioPayloadOtherName, lookupLast, List.foldl,
        hf, if_false])
    rfl rfl

/-- Mapping with all six keys whose `lines` value is the number 0: falsy,
so it trips the emptiness check rather than a `len` type error. -/
def zeroLinesPayload : List (String × Json) :=
  [("lines", .num 0), ("biases", .arr []), ("styles", .arr []),
   ("stroke_colors", .arr []), ("stroke_widths", .arr []), ("filename", .str "out.svg")]

/-- Oracle delivering the falsy-number `lines` payload to a loaded engine. -/
def zeroLinesOracle : RequestOracle :=
  { modelLoaded := true
    contentLength := .ok 96
    decodeBody := .ok (.obj zeroLinesPayload)
    tempPath := "/tmp/tmpzero0.svg"
    render := .ok "<svg/>"
    readExc := none }

/-- C10 counterexample: a mapping with the six keys whose `lines` value is
the number 0 — a value with no `len` — is answered with the 400 "Lines
cannot be empty" validation error, not the claimed 500, because `not lines`
is checked before `len(lines)` and 0 is falsy. -/
theorem zero_lines_number_returns_400 :
    (handle_generate_request zeroLinesOracle).response
      = send_error_response 400 "Lines cannot be empty"
    ∧ (handle_generate_request zeroLinesOracle).response.status ≠ 500 :=
  ⟨rfl, by decide⟩

/-- Left-to-right behaviour of the array-length generator: arrays of the
expected length are passed over until a value with no `len` is reached,
whose `len` then raises. -/
theorem allLenEq_error_of_split (n : Nat) (bad : Json) (hbad : bad.pyLen = none) :
    ∀ pre rest : List Json, (∀ v ∈ pre, ∃ xs, v = Json.arr xs ∧ xs.length = n) →
      allLenEq n (pre ++ bad :: rest) = .error lenErrorMessage
  | [], rest, _ => by simp [allLenEq, Json.pyLenE, hbad]
  | v :: pre, rest, hpre => by
    obtain ⟨xs, rfl, hlen⟩ := hpre v (by simp)
    simp [allLenEq, Json.pyLenE, Json.pyLen, hlen,
      allLenEq_error_of_split n bad hbad pre rest fun w hw => hpre w (by simp [hw])]

/-- C10 amended: with a loaded engine, a request without a parseable
Content-Length gets the 500 catch-all response carrying the raised message;
a mapping with the six keys whose `lines` value is truthy but has no `len`
(any such value — a non-zero number, `true`) raises inside validation and
gets the 500 catch-all; and when the `lines` checks pass, a no-`len` value
among `biases`, `styles`, `stroke_colors`, `stroke_widths` raises at the
point the left-to-right length check reaches it, likewise landing in the
500 catch-all — but falsy `lines` values without `len`, such as 0, hit the
400 "Lines cannot be empty" check first. -/
theorem type_errors_hit_catch_all (o : RequestOracle) (m : String)
    (kvs : List (String × Json)) (lv bv sv cv wv fv bad : Json)
    (ls pre rest : List Json) (n : Nat)
    (hm : o.modelLoaded = true) :
    (o.contentLength = .error m →
      (handle_generate_request o).response = internalServerError m)
    ∧ (o.contentLength = .ok n → o.decodeBody = .ok (.obj kvs) →
        lookupLast kvs "lines" = some lv →
        lv.truthy = true → lv.pyLen = none →
        (∀ f ∈ required_fields, (lookupLast kvs f).isSome = true) →
        (handle_generate_request o).response = internalServerError lenErrorMessage)
    ∧ (o.contentLength = .ok n → o.decodeBody = .ok (.obj kvs) →
        lookupLast kvs "lines" = some (.arr ls) →
        lookupLast kvs "biases" = some bv →
        lookupLast kvs "styles" = some sv →
        lookupLast kvs "stroke_colors" = some cv →
        lookupLast kvs "stroke_widths" = some wv →
        lookupLast kvs "filename" = some fv →
        isStrList ls = true → ls ≠ [] → ls.all strLenLe75 = true →
        [bv, sv, cv, wv] = pre ++ bad :: rest →
        (∀ v ∈ pre, ∃ xs, v = Json.arr xs ∧ xs.length = ls.length) →
        bad.pyLen = none →
        (handle_generate_request o).response = internalServerError lenErrorMessage) := by
  refine ⟨fun hcl => ?_, fun hcl hd hlk htr hnl hpres => ?_,
    fun hcl hd hlk hbk hsk hck hwk hfk hstr hne h75 hsplit hpre hbad => ?_⟩
  · simp [handle_generate_request, hm, hcl, earlyExit]
  case refine_3 =>
    have hie : ls.isEmpty = false := by
      cases ls with
      | nil => exact absurd rfl hne
      | cons a as => rfl
    have hn0 : ¬ ls.length = 0 := by simpa [List.length_eq_zero] using hne
    have hallE : allLenEq ls.length [bv, sv, cv, wv] = .error lenErrorMessage := by
      rw [hsplit]
      exact allLenEq_error_of_split ls.length bad hbad pre rest hpre
    simp [handle_generate_request, hm, hcl, hd, validate, firstMissing_obj,
      required_fields, Json.pySubscript, hlk, hbk, hsk, hck, hwk, hfk, Json.truthy,
      hie, Json.pyLenE, Json.pyLen, hn0, Json.pyIter, allLenLe_strs _ hstr, h75,
      hallE, earlyExit]
  case refine_2 =>
    have hfind : required_fields.find? (fun f => (lookupLast kvs f).isNone) = none := by
      apply List.find?_eq_none.mpr
      intro f hf
      have := hpres f hf
      simp [Option.isNone, Option.isSome] at this ⊢
      cases hx : lookupLast kvs f with
      | none => rw [hx] at this; exact absurd this (by simp)
      | some v => simp
    have hval : ∀ f ∈ required_fields, ∃ v, lookupLast kvs f = some v := by
      intro f hf
      have := hpres f hf
      cases hx : lookupLast kvs f with
      | none => rw [hx] at this; exact absurd this (by simp)
      | some v => exact ⟨v, rfl⟩
    obtain ⟨bv2, hbk⟩ := hval "biases" (by simp [required_fields])
    obtain ⟨sv2, hsk⟩ := hval "styles" (by simp [required_fields])
    obtain ⟨cv2, hck⟩ := hval "stroke_colors" (by simp [required_fields])
    obtain ⟨wv2, hwk⟩ := hval "stroke_widths" (by simp [required_fields])
    obtain ⟨fv2, hfk⟩ := hval "filename" (by simp [required_fields])
    simp [handle_generate_request, hm, hcl, hd, validate, firstMissing_obj, hfind,
      Json.pySubscript, hlk, hbk, hsk, hck, hwk, hfk, htr, Json.pyLenE, hnl,
      earlyExit]

/-- Oracle whose Content-Length header cannot be parsed. -/
def badLengthOracle : RequestOracle :=
  { scenarioOracle with contentLength := .error "invalid literal for int()" }

/-- Mapping with the six keys whose `lines` value is `true`: truthy and
without `len`. -/
def boolLinesPayload : List (String × Json) :=
  [("lines", .bool true), ("biases", .arr []), ("styles", .arr []),
   ("stroke_colors", .arr []), ("stroke_widths", .arr []), ("filename", .str "out.svg")]

/-- Oracle delivering the `lines: true` payload to a loaded engine. -/
def boolLinesOracle : RequestOracle :=
  { zeroLinesOracle with decodeBody := .ok (.obj boolLinesPayload) }

/-- Mapping whose `lines` passes its checks but whose `styles` value is a
number with no `len`, reached by the length check after a well-formed
`biases`. -/
def badStylesPayload : List (String × Json) :=
  [("lines", .arr [.str "Hi"]), ("biases", .arr [.num (1/2)]), ("styles", .num 7),
   ("stroke_colors", .arr [.str "#000"]), ("stroke_widths", .arr [.num 1]),
   ("filename", .str "out.svg")]

/-- Oracle delivering the no-`len` `styles` payload to a loaded engine. -/
def badStylesOracle : RequestOracle :=
  { zeroLinesOracle with decodeBody := .ok (.obj badStylesPayload) }

/-- Witness for the amended C10: an unparseable Content-Length gets the 500
catch-all; `lines: true` (truthy, no `len`) raises in `len` and gets the
500 catch-all; and a no-`len` `styles` value reached by the array-length
check also gets the 500 catch-all. -/
theorem type_errors_hit_catch_all_witness :
    (handle_generate_request badLengthOracle).response
      = internalServerError "invalid literal for int()"
    ∧ (handle_generate_request boolLinesOracle).response
      = internalServerError lenErrorMessage
    ∧ (handle_generate_request badStylesOracle).response
      = internalServerError lenErrorMessage :=
  ⟨(type_errors_hit_catch_all badLengthOracle "invalid literal for int()"
      [] .null .null .null .null .null .null .null [] [] [] 0 rfl).1 rfl,
   (type_errors_hit_catch_all boolLinesOracle "unused" boolLinesPayload
      (.bool true) .null .null .null .null .null .null [] [] [] 96 rfl).2.1
      rfl rfl rfl rfl rfl (by decide),
   (type_errors_hit_catch_all badStylesOracle "unused" badStylesPayload .null
      (.arr [.num (1/2)]) (.num 7) (.arr [.str "#000"]) (.arr [.num 1])
      (.str "out.svg") (.num 7)
      [.str "Hi"] [.arr [.num (1/2)]] [.arr [.str "#000"], .arr [.num 1]] 96 rfl).2.2
      rfl rfl rfl rfl rfl rfl rfl rfl rfl (by simp) rfl rfl
      (by
        intro v hv
        rw [List.mem_singleton] at hv
        subst hv
        exact ⟨[.num (1/2)], rfl, rfl⟩)
      rfl⟩

end HandwritingServer
